import Mathlib

/-!
# PhyVista backend — verification development

A shallow embedding of `src/Backend/phyvista_backend.py` (vehicle steering
simulation: bicycle-model dynamics, PID controller, simulation orchestrator,
summary statistics).  Python floats are modelled as real numbers; `np.inf`
sentinels are modelled by `Option ℝ` (`none` = infinity); NaN produced by
`np.mean` of an empty slice is modelled by `Option ℝ` (`none` = NaN);
functions that raise are modelled as `Option`/`Except` returning functions.
-/

open Real

namespace PhyVista

/-- The numerical guard `self._epsilon = 1e-8` of `VehicleDynamics`. -/
noncomputable def eps : ℝ := 1 / 100000000

/-- `np.clip(x, lo, hi)`, which computes `min(hi, max(lo, x))`
(so it returns `hi` whenever `lo > hi`). -/
noncomputable def clip (x lo hi : ℝ) : ℝ := min hi (max lo x)

/-- `np.radians`: degrees to radians. -/
noncomputable def radians (d : ℝ) : ℝ := d * π / 180

/-- `np.degrees`: radians to degrees. -/
noncomputable def degrees (r : ℝ) : ℝ := r * 180 / π

/-- `np.arctan2 y x`, the angle of the point `(x, y)`, valued in `(-π, π]`
(and `0` at the origin).  Modelled as the argument of the complex number
`x + y·i`, which has exactly this range. -/
noncomputable def atan2 (y x : ℝ) : ℝ := Complex.arg ⟨x, y⟩

/-- `PhysicsParameters`: the physical configuration record. -/
structure PhysicsParameters where
  mass : ℝ
  gravity : ℝ
  friction_coefficient : ℝ
  wheelbase : ℝ
  max_steering_angle : ℝ

/-- The `__post_init__` validation of `PhysicsParameters` (construction fails
unless these hold). -/
def PhysicsParameters.Valid (p : PhysicsParameters) : Prop :=
  0 < p.mass ∧ 0 ≤ p.gravity ∧ 0 ≤ p.friction_coefficient ∧ 0 < p.wheelbase ∧
    0 ≤ p.max_steering_angle ∧ p.max_steering_angle ≤ 90

/-- `normal_force`: `N = m·g`. -/
noncomputable def PhysicsParameters.normal_force (p : PhysicsParameters) : ℝ :=
  p.mass * p.gravity

/-- `max_friction_force`: `F_max = μ·N`. -/
noncomputable def PhysicsParameters.max_friction_force (p : PhysicsParameters) : ℝ :=
  p.friction_coefficient * p.normal_force

/-- `VehicleState`: a snapshot of the vehicle.  The position array `[x, y]`
is a pair of reals. -/
structure VehicleState where
  time : ℝ
  position : ℝ × ℝ
  velocity : ℝ
  heading : ℝ
  steering_angle : ℝ
  angular_velocity : ℝ

/-- `VehicleDynamics.calculate_turn_radius`: `R = L / tan(δ)`, returning the
infinity sentinel (`none`) when the angle in radians, or its tangent, is
smaller than epsilon in magnitude. -/
noncomputable def calculate_turn_radius (p : PhysicsParameters) (steering_angle_deg : ℝ) :
    Option ℝ :=
  if |radians steering_angle_deg| < eps then none
  else if |Real.tan (radians steering_angle_deg)| < eps then none
  else some (p.wheelbase / Real.tan (radians steering_angle_deg))

/-- `VehicleDynamics.calculate_centripetal_force`: `F_c = m·v²/r`, or `0` when
the turn radius is infinite (`none`) or smaller than epsilon in magnitude. -/
noncomputable def calculate_centripetal_force (p : PhysicsParameters) (velocity : ℝ)
    (turn_radius : Option ℝ) : ℝ :=
  match turn_radius with
  | none => 0
  | some r => if |r| < eps then 0 else p.mass * velocity ^ 2 / r

/-- `VehicleDynamics.calculate_max_safe_velocity`: infinity (`none`) for an
infinite turn radius, `0` when no friction is available, otherwise
`sqrt(μ·g·|R|)`. -/
noncomputable def calculate_max_safe_velocity (p : PhysicsParameters)
    (steering_angle_deg : ℝ) : Option ℝ :=
  match calculate_turn_radius p steering_angle_deg with
  | none => none
  | some r =>
      if p.max_friction_force ≤ 0 then some 0
      else some (Real.sqrt (p.friction_coefficient * p.gravity * |r|))

/-- `VehicleDynamics.check_slip_condition`: returns
`(can_turn_without_slip, friction_utilization_percent)`. -/
noncomputable def check_slip_condition (p : PhysicsParameters) (velocity : ℝ)
    (steering_angle_deg : ℝ) : Bool × ℝ :=
  let turn_radius := calculate_turn_radius p steering_angle_deg
  let required_force := calculate_centripetal_force p velocity turn_radius
  let max_force := p.max_friction_force
  if max_force < eps then
    if required_force < eps then (true, 0) else (false, 100)
  else
    (if required_force ≤ max_force then true else false,
      min (required_force / max_force * 100) 100)

/-- The new (rate-limited and saturated) steering angle computed at the top of
`update_state`: `clip(steering + input·dt, ±max_steering_angle)`. -/
noncomputable def new_steering_of (p : PhysicsParameters) (s : VehicleState)
    (dt steering_input : ℝ) : ℝ :=
  clip (s.steering_angle + steering_input * dt)
    (-p.max_steering_angle) p.max_steering_angle

/-- The straight-line body of `update_state` after the `dt` guard: steering
update, slip-dependent angular velocity, heading normalization through
`arctan2(sin, cos)`, and midpoint position integration. -/
noncomputable def advance (p : PhysicsParameters) (s : VehicleState)
    (dt steering_input : ℝ) : VehicleState :=
  let new_steering := new_steering_of p s dt steering_input
  let turn_radius := calculate_turn_radius p new_steering
  let can_turn := (check_slip_condition p s.velocity new_steering).1
  let angular_velocity : ℝ :=
    match turn_radius with
    | some r =>
        if eps < |r| then
          if can_turn then s.velocity / r
          else if eps < s.velocity then
            p.friction_coefficient * p.gravity / s.velocity * Real.sign new_steering
          else 0
        else 0
    | none => 0
  let new_heading :=
    atan2 (Real.sin (s.heading + angular_velocity * dt))
      (Real.cos (s.heading + angular_velocity * dt))
  let mid_heading := s.heading + 0.5 * angular_velocity * dt
  { time := s.time + dt
    position := (s.position.1 + s.velocity * Real.cos mid_heading * dt,
                 s.position.2 + s.velocity * Real.sin mid_heading * dt)
    velocity := s.velocity
    heading := new_heading
    steering_angle := new_steering
    angular_velocity := angular_velocity }

/-- `VehicleDynamics.update_state`: raises (returns `none`) when `dt ≤ 0`,
otherwise returns the advanced state. -/
noncomputable def update_state (p : PhysicsParameters) (s : VehicleState)
    (dt steering_input : ℝ) : Option VehicleState :=
  if dt ≤ 0 then none else some (advance p s dt steering_input)

/-- `PIDController`: gains, limits, and the mutable accumulator fields. -/
structure PIDController where
  kp : ℝ
  ki : ℝ
  kd : ℝ
  integral_limit : ℝ
  output_limit : ℝ
  integral : ℝ
  prev_error : ℝ
  prev_time : ℝ
  first_call : Bool

/-- `PIDController.__init__`: gains and limits as given, accumulator zeroed,
first-call flag set. -/
def mkPIDController (kp ki kd integral_limit output_limit : ℝ) : PIDController :=
  { kp := kp, ki := ki, kd := kd, integral_limit := integral_limit,
    output_limit := output_limit, integral := 0, prev_error := 0,
    prev_time := 0, first_call := true }

/-- `PIDController.compute(target, current, time)`: returns the clamped
control output together with the updated controller state.  The first call
(and any call with a non-positive elapsed time) substitutes the default step
`0.01`; the integral accumulator is clipped to `±integral_limit`. -/
noncomputable def PIDController.compute (c : PIDController)
    (target current time : ℝ) : ℝ × PIDController :=
  let error := target - current
  let dt : ℝ :=
    if c.first_call then 0.01
    else if time - c.prev_time ≤ 0 then 0.01
    else time - c.prev_time
  let p_term := c.kp * error
  let integral := clip (c.integral + error * dt) (-c.integral_limit) c.integral_limit
  let i_term := c.ki * integral
  let derivative := if 0 < dt then (error - c.prev_error) / dt else 0
  let d_term := c.kd * derivative
  let output := clip (p_term + i_term + d_term) (-c.output_limit) c.output_limit
  (output,
    { c with integral := integral, prev_error := error, prev_time := time,
             first_call := false })

/-- The successive controller states produced by a sequence of
`compute (target, current, time)` calls, one state per call. -/
noncomputable def pidStates (c : PIDController) :
    List (ℝ × ℝ × ℝ) → List PIDController
  | [] => []
  | a :: rest =>
      let c' := (c.compute a.1 a.2.1 a.2.2).2
      c' :: pidStates c' rest

/-- The fields of `VehicleState.to_dict`. -/
structure StateDict where
  time : ℝ
  position_x : ℝ
  position_y : ℝ
  velocity : ℝ
  heading_deg : ℝ
  heading_rad : ℝ
  steering_angle : ℝ
  angular_velocity_rad : ℝ
  angular_velocity_deg : ℝ

/-- The `diagnostics` sub-record returned by `Simulation.step`.  `turn_radius`
and `max_safe_velocity` are `None` in the Python record when infinite, which
matches the `Option` sentinels of the dynamics functions. -/
structure DiagDict where
  can_turn : Bool
  friction_utilization : ℝ
  turn_radius : Option ℝ
  normal_force : ℝ
  max_friction_force : ℝ
  centripetal_force_required : ℝ
  max_safe_velocity : Option ℝ
  pid_error : ℝ
  pid_integral : ℝ
  control_signal : ℝ

/-- One entry of the list returned by `Simulation.run`:
`{'state': ..., 'diagnostics': ...}`. -/
structure StepRecord where
  state : StateDict
  diagnostics : DiagDict

/-- The `to_dict` serialization of a state (the per-step `state` record). -/
noncomputable def stateToDict (st : VehicleState) : StateDict :=
  { time := st.time
    position_x := st.position.1
    position_y := st.position.2
    velocity := st.velocity
    heading_deg := degrees st.heading
    heading_rad := st.heading
    steering_angle := st.steering_angle
    angular_velocity_rad := st.angular_velocity
    angular_velocity_deg := degrees st.angular_velocity }

/-- `Simulation`: the orchestrator's fields.  The `dynamics` member of the
Python class is determined by `params` (plus the constant epsilon) and is
folded into the free dynamics functions. -/
structure Simulation where
  params : PhysicsParameters
  controller : PIDController
  dt : ℝ
  initial_velocity : ℝ
  state : VehicleState
  target_angle : ℝ
  history : List VehicleState
  current_time : ℝ

/-- The initial / reset vehicle state: everything zero except the velocity. -/
def initialVehicleState (velocity : ℝ) : VehicleState :=
  { time := 0, position := (0, 0), velocity := velocity, heading := 0,
    steering_angle := 0, angular_velocity := 0 }

/-- `Simulation.__init__`: fails (`none`) when `dt ≤ 0` or the initial
velocity is negative; otherwise the freshly initialized simulation. -/
noncomputable def mkSimulation (params : PhysicsParameters)
    (controller : PIDController) (initial_velocity dt : ℝ) : Option Simulation :=
  if dt ≤ 0 then none
  else if initial_velocity < 0 then none
  else some
    { params := params, controller := controller, dt := dt,
      initial_velocity := initial_velocity,
      state := initialVehicleState initial_velocity,
      target_angle := 0, history := [], current_time := 0 }

/-- The diagnostics record assembled at the end of `Simulation.step` from the
new state, the control signal and the post-call integral accumulator. -/
noncomputable def mkDiagnostics (p : PhysicsParameters) (target : ℝ)
    (st : VehicleState) (control_signal pid_integral : ℝ) : DiagDict :=
  let slip := check_slip_condition p st.velocity st.steering_angle
  let turn_radius := calculate_turn_radius p st.steering_angle
  { can_turn := slip.1
    friction_utilization := slip.2
    turn_radius := turn_radius
    normal_force := p.normal_force
    max_friction_force := p.max_friction_force
    centripetal_force_required := calculate_centripetal_force p st.velocity turn_radius
    max_safe_velocity := calculate_max_safe_velocity p st.steering_angle
    pid_error := target - st.steering_angle
    pid_integral := pid_integral
    control_signal := control_signal }

/-- `Simulation.step`: computes the control signal, advances the physics
(`none` when `update_state` raises), appends a copy of the new state to the
history, and returns the diagnostics record together with the updated
simulation. -/
noncomputable def Simulation.step (sim : Simulation) :
    Option (StepRecord × Simulation) :=
  let out := (sim.controller.compute sim.target_angle sim.state.steering_angle
      sim.state.time).1
  let c' := (sim.controller.compute sim.target_angle sim.state.steering_angle
      sim.state.time).2
  match update_state sim.params sim.state sim.dt out with
  | none => none
  | some st' =>
      some
        ({ state := stateToDict st'
           diagnostics := mkDiagnostics sim.params sim.target_angle st' out c'.integral },
         { sim with controller := c', state := st',
                    history := sim.history ++ [st'],
                    current_time := st'.time })

/-- The `for i in range(steps)` loop of `Simulation.run`: repeatedly step,
collecting results, stopping early (and swallowing the error) when a step
fails. -/
noncomputable def runLoop : ℕ → Simulation → List StepRecord
  | 0, _ => []
  | n + 1, sim =>
      match sim.step with
      | none => []
      | some (r, sim') => r :: runLoop n sim'

/-- `Simulation.run(duration, target_angle)`: raises when `duration ≤ 0`,
otherwise fixes the target and executes `ceil(duration / dt)` step attempts,
returning the collected per-step records. -/
noncomputable def Simulation.run (sim : Simulation) (duration target_angle : ℝ) :
    Except String (List StepRecord) :=
  if duration ≤ 0 then Except.error "Duration must be positive"
  else Except.ok
    (runLoop (Int.ceil (duration / sim.dt)).toNat
      { sim with target_angle := target_angle })

/-- A value of one of the summary-statistics dictionary entries.  `optNum`
holds either a well-defined number or the non-number outcomes of the Python
code (`None`, and NaN from an empty-slice mean). -/
inductive Value where
  | num : ℝ → Value
  | nat : ℕ → Value
  | pair : ℝ → ℝ → Value
  | optNum : Option ℝ → Value

/-- `np.mean` over a possibly empty list: NaN (modelled `none`) on the empty
list, otherwise the sum divided by the length. -/
noncomputable def npMean (l : List ℝ) : Option ℝ :=
  if l = [] then none else some (l.sum / l.length)

/-- The path-length accumulation of `get_summary_statistics`: the sum of
Euclidean distances between successive history positions. -/
noncomputable def pathLength : List VehicleState → ℝ
  | a :: b :: rest =>
      Real.sqrt ((b.position.1 - a.position.1) ^ 2 +
        (b.position.2 - a.position.2) ^ 2) + pathLength (b :: rest)
  | _ => 0

/-- Python `max` over a list (the empty case is unreachable in the source;
`0` is returned there). -/
noncomputable def listMax : List ℝ → ℝ
  | [] => 0
  | x :: xs => xs.foldl max x

/-- Python `min` over a list (the empty case is unreachable in the source;
`0` is returned there). -/
noncomputable def listMin : List ℝ → ℝ
  | [] => 0
  | x :: xs => xs.foldl min x

/-- `Simulation._calculate_settling_time`: the time of the earliest sample
after which every error stays within the threshold, or `none`. -/
noncomputable def settlingTime (history : List VehicleState) (errors : List ℝ)
    (threshold : ℝ) : Option ℝ :=
  match (List.range errors.length).find?
      (fun i => decide (∀ e ∈ errors.drop i, |e| ≤ threshold)) with
  | none => none
  | some i => (history.get? i).map VehicleState.time

/-- `Simulation._calculate_overshoot`. -/
noncomputable def overshootCalc (target : ℝ) (values : List ℝ) : ℝ :=
  if values = [] ∨ |target| < 1 / 1000000 then 0
  else
    let max_val := if 0 < target then listMax values else listMin values
    max 0 ((|max_val| - |target|) / |target| * 100)

/-- The slice of absolute tracking errors over which `get_summary_statistics`
averages the steady-state error: everything from index
`steady_state_idx = max(1, int(0.9 · len(errors)))` on (the history and the
error list have the same length). -/
noncomputable def steadyStateTail (target : ℝ) (history : List VehicleState) :
    List ℝ :=
  ((history.map fun st => target - st.steering_angle).map fun e => |e|).drop
    (max 1 (9 * history.length / 10))

/-- `Simulation.get_summary_statistics`, as the ordered key/value list of the
returned dictionary.  The `steady_state_error` entry of the non-empty branch
is the mean of the absolute errors from index `max(1, int(0.9·n))` on, which
is NaN (`none`) when that slice is empty.  (`int(0.9·n)` on the float `0.9`
agrees with the exact `⌊9·n/10⌋` for any realizable history length.) -/
noncomputable def get_summary_statistics (target : ℝ)
    (history : List VehicleState) : List (String × Value) :=
  match history with
  | [] =>
      [("total_time", .num 0), ("total_steps", .nat 0),
       ("total_distance", .num 0), ("final_position", .pair 0 0),
       ("final_heading_deg", .num 0), ("mean_steering_error", .num 0),
       ("max_steering_error", .num 0), ("rms_steering_error", .num 0),
       ("settling_time", .optNum none), ("overshoot", .num 0),
       ("steady_state_error", .num 0)]
  | x :: xs =>
      let h := x :: xs
      let last := (x :: xs).getLast (List.cons_ne_nil x xs)
      let errors := h.map (fun st => target - st.steering_angle)
      let abs_errors := errors.map (fun e => |e|)
      let steering_angles := h.map (fun st => st.steering_angle)
      [("total_time", .num last.time),
       ("total_steps", .nat h.length),
       ("total_distance", .num (Real.sqrt (last.position.1 ^ 2 + last.position.2 ^ 2))),
       ("path_length", .num (pathLength h)),
       ("final_position", .pair last.position.1 last.position.2),
       ("final_heading_deg", .num (degrees last.heading)),
       ("final_steering_angle", .num last.steering_angle),
       ("mean_steering_error", .num (abs_errors.sum / abs_errors.length)),
       ("max_steering_error", .num (listMax abs_errors)),
       ("rms_steering_error", .num (Real.sqrt ((errors.map (fun e => e ^ 2)).sum / errors.length))),
       ("settling_time", .optNum (settlingTime h errors (1 / 2))),
       ("overshoot", .num (overshootCalc target steering_angles)),
       ("steady_state_error", .optNum (npMean (steadyStateTail target h)))]

/-! ## Basic lemmas -/

theorem eps_pos : 0 < eps := by norm_num [eps]

theorem abs_clip_le {L : ℝ} (x : ℝ) (hL : 0 ≤ L) : |clip x (-L) L| ≤ L := by
  rw [abs_le, clip]
  constructor
  · exact le_min (by linarith) (le_max_left _ _)
  · exact min_le_left _ _

theorem atan2_mem_Ioc (y x : ℝ) : atan2 y x ∈ Set.Ioc (-π) π :=
  Complex.arg_mem_Ioc _

theorem radians_45 : radians 45 = π / 4 := by unfold radians; ring

theorem radians_neg_45 : radians (-45) = -(π / 4) := by unfold radians; ring

theorem radians_neg_135 : radians (-135) = -(3 * π / 4) := by unfold radians; ring

theorem radians_0 : radians 0 = 0 := by unfold radians; ring

theorem eps_lt_pi_div_four : eps < π / 4 := by
  have := Real.pi_gt_three
  rw [eps]; linarith

theorem turn_radius_at_45 (p : PhysicsParameters) :
    calculate_turn_radius p 45 = some p.wheelbase := by
  unfold calculate_turn_radius
  rw [radians_45, Real.tan_pi_div_four,
    if_neg (by rw [abs_of_pos (by positivity), not_lt]; exact eps_lt_pi_div_four.le),
    if_neg (by rw [not_lt]; norm_num [eps]), div_one]

theorem turn_radius_at_neg_45 (p : PhysicsParameters) :
    calculate_turn_radius p (-45) = some (-p.wheelbase) := by
  unfold calculate_turn_radius
  rw [radians_neg_45, Real.tan_neg, Real.tan_pi_div_four,
    if_neg (by rw [abs_neg, abs_of_pos (by positivity), not_lt]; exact eps_lt_pi_div_four.le),
    if_neg (by rw [not_lt]; norm_num [eps])]
  rw [div_neg, div_one]

theorem turn_radius_at_neg_135 (p : PhysicsParameters) :
    calculate_turn_radius p (-135) = some p.wheelbase := by
  have htan : Real.tan (-(3 * π / 4)) = 1 := by
    have h : -(3 * π / 4) = π / 4 - π := by ring
    rw [h, Real.tan_sub_pi, Real.tan_pi_div_four]
  unfold calculate_turn_radius
  rw [radians_neg_135, htan,
    if_neg (by
      rw [abs_neg, abs_of_pos (by positivity), not_lt]
      have := Real.pi_gt_three
      rw [eps]; linarith),
    if_neg (by rw [not_lt]; norm_num [eps]), div_one]

theorem turn_radius_at_0 (p : PhysicsParameters) :
    calculate_turn_radius p 0 = none := by
  unfold calculate_turn_radius
  rw [radians_0, if_pos (by rw [abs_zero]; exact eps_pos)]

theorem atan2_zero_one : atan2 0 1 = 0 := by
  rw [atan2, show ((⟨1, 0⟩ : ℂ)) = 1 from by apply Complex.ext <;> simp]
  exact Complex.arg_one

theorem advance_time (p : PhysicsParameters) (s : VehicleState) (dt u : ℝ) :
    (advance p s dt u).time = s.time + dt := rfl

theorem advance_velocity (p : PhysicsParameters) (s : VehicleState) (dt u : ℝ) :
    (advance p s dt u).velocity = s.velocity := rfl

theorem update_state_of_pos (p : PhysicsParameters) (s : VehicleState)
    {dt : ℝ} (u : ℝ) (hdt : 0 < dt) :
    update_state p s dt u = some (advance p s dt u) := by
  simp [update_state, not_le.mpr hdt]

/-! ## C8 -/

/-- C8: `update_state` fails exactly when `dt ≤ 0`; when it succeeds the new
state has `time = state.time + dt` and the same velocity.  (The input state
is a value and is never mutated: the embedding is functional, matching the
source's construction of a fresh `VehicleState`.) -/
theorem claim_C8_update_state (p : PhysicsParameters) (s : VehicleState)
    (dt steering_input : ℝ) :
    (dt ≤ 0 → update_state p s dt steering_input = none) ∧
    (0 < dt → ∃ s', update_state p s dt steering_input = some s' ∧
      s'.time = s.time + dt ∧ s'.velocity = s.velocity) := by
  constructor
  · intro h; simp [update_state, h]
  · intro h
    exact ⟨advance p s dt steering_input, update_state_of_pos p s steering_input h,
      advance_time p s dt steering_input, advance_velocity p s dt steering_input⟩

/-- Witness for C8 at `dt = 0` (failure) and `dt = 1` (success). -/
theorem claim_C8_witness :
    update_state ⟨500, 1.62, 0.7, 2.5, 45⟩ (initialVehicleState 10) 0 0 = none ∧
    ∃ s', update_state ⟨500, 1.62, 0.7, 2.5, 45⟩ (initialVehicleState 10) 1 0 = some s' ∧
      s'.time = (initialVehicleState 10).time + 1 ∧
      s'.velocity = (initialVehicleState 10).velocity :=
  ⟨(claim_C8_update_state _ _ 0 0).1 le_rfl,
   (claim_C8_update_state _ _ 1 0).2 one_pos⟩

/-! ## C5 -/

/-- C5: for every state with heading in `(-π, π]` and every positive `dt`
and steering rate, the state returned by `update_state` again has its heading
in `(-π, π]` (the heading is renormalized through `arctan2(sin, cos)`, whose
range is exactly this interval). -/
theorem claim_C5_heading_range (p : PhysicsParameters) (s : VehicleState)
    (dt steering_input : ℝ) (hdt : 0 < dt)
    (hh : s.heading ∈ Set.Ioc (-π) π) :
    ∃ s', update_state p s dt steering_input = some s' ∧
      s'.heading ∈ Set.Ioc (-π) π :=
  ⟨advance p s dt steering_input, update_state_of_pos p s steering_input hdt,
    atan2_mem_Ioc _ _⟩

/-- Witness for C5 at the initial state (heading `0`) and `dt = 1`. -/
theorem claim_C5_witness :
    ∃ s', update_state ⟨500, 1.62, 0.7, 2.5, 45⟩ (initialVehicleState 10) 1 0 = some s' ∧
      s'.heading ∈ Set.Ioc (-π) π :=
  claim_C5_heading_range _ _ 1 0 one_pos
    ⟨by simpa [initialVehicleState] using Real.pi_pos,
     by simpa [initialVehicleState] using Real.pi_pos.le⟩

/-! ## C1 -/

/-- C1: with `friction_coefficient = 0` (so `max_friction_force = 0 < eps`),
for any velocity above epsilon and nonzero steering angle,
`check_slip_condition` returns `can_turn = false` and `utilization = 100` as
soon as any turning force is required — "a turning force is required" being
the code's own threshold, a required centripetal force of at least epsilon. -/
theorem claim_C1_zero_friction_slip (p : PhysicsParameters)
    (velocity steering_angle_deg : ℝ)
    (hmu : p.friction_coefficient = 0) (hv : eps < velocity)
    (hd : steering_angle_deg ≠ 0)
    (hreq : eps ≤ calculate_centripetal_force p velocity
      (calculate_turn_radius p steering_angle_deg)) :
    check_slip_condition p velocity steering_angle_deg = (false, 100) := by
  have hmf : p.max_friction_force = 0 := by
    simp [PhysicsParameters.max_friction_force, hmu]
  simp only [check_slip_condition, hmf]
  rw [if_pos eps_pos, if_neg (not_lt.mpr hreq)]

/-- Witness for C1: frictionless Moon-gravity parameters, `v = 10`,
steering `45°` (turn radius `2.5 m`, required force `20000 N ≥ eps`). -/
theorem claim_C1_witness :
    eps ≤ calculate_centripetal_force ⟨500, 1.62, 0, 2.5, 45⟩ 10
      (calculate_turn_radius ⟨500, 1.62, 0, 2.5, 45⟩ 45) ∧
    check_slip_condition ⟨500, 1.62, 0, 2.5, 45⟩ 10 45 = (false, 100) := by
  have hr : calculate_turn_radius ⟨500, 1.62, 0, 2.5, 45⟩ 45 = some (2.5 : ℝ) :=
    turn_radius_at_45 _
  have hreq : eps ≤ calculate_centripetal_force ⟨500, 1.62, 0, 2.5, 45⟩ 10
      (calculate_turn_radius ⟨500, 1.62, 0, 2.5, 45⟩ 45) := by
    rw [hr]
    simp only [calculate_centripetal_force]
    rw [if_neg (by rw [not_lt, abs_of_pos] <;> norm_num [eps])]
    norm_num [eps]
  exact ⟨hreq,
    claim_C1_zero_friction_slip _ _ _ rfl (by norm_num [eps]) (by norm_num) hreq⟩

/-! ## C2 -/

/-- Counterexample to C2 as stated.  At steering `-135°` (a negative angle
whose turn radius is finite, namely `+2.5 m`, because the tangent of `-135°`
is positive) and `v = 10`, `check_slip_condition` reports
`can_turn = false` — slip IS reported for a negative steering angle.  And at
`v = 0`, steering `-45°`, the returned utilization is `0`, which is not
negative. -/
theorem claim_C2_counterexample :
    calculate_turn_radius ⟨500, 1.62, 0.7, 2.5, 45⟩ (-135) = some (2.5 : ℝ) ∧
    check_slip_condition ⟨500, 1.62, 0.7, 2.5, 45⟩ 10 (-135) = (false, 100) ∧
    check_slip_condition ⟨500, 1.62, 0.7, 2.5, 45⟩ 0 (-45) = (true, 0) := by
  refine ⟨turn_radius_at_neg_135 _, ?_, ?_⟩
  · have hreq : calculate_centripetal_force ⟨500, 1.62, 0.7, 2.5, 45⟩ 10
        (some (2.5 : ℝ)) = 20000 := by
      simp only [calculate_centripetal_force]
      rw [if_neg (by rw [not_lt, abs_of_pos] <;> norm_num [eps])]
      norm_num
    simp only [check_slip_condition, turn_radius_at_neg_135,
      PhysicsParameters.max_friction_force, PhysicsParameters.normal_force]
    rw [hreq, if_neg (by rw [not_lt]; norm_num [eps]), if_neg (by norm_num),
      min_eq_right (by norm_num)]
  · have hreq : calculate_centripetal_force ⟨500, 1.62, 0.7, 2.5, 45⟩ 0
        (some (-2.5 : ℝ)) = 0 := by
      simp only [calculate_centripetal_force]
      rw [if_neg (by rw [not_lt, abs_neg, abs_of_pos] <;> norm_num [eps])]
      norm_num
    simp only [check_slip_condition, turn_radius_at_neg_45,
      PhysicsParameters.max_friction_force, PhysicsParameters.normal_force]
    rw [hreq, if_neg (by rw [not_lt]; norm_num [eps]), if_pos (by norm_num)]
    norm_num [min_def]

/-- C2 (amended): for every velocity and every negative steering angle
strictly between `-90°` and `0°` whose turn radius is finite, with validated
positive mass and wheelbase, `check_slip_condition` returns `can_turn = true`
(the signed required force is nonpositive), and the returned utilization is
nonpositive — not a percentage in `(0, 100]` — rather than negative in every
case (it is `0` at zero velocity or in the zero-friction branch). -/
theorem claim_C2_amended (p : PhysicsParameters) (v d r : ℝ)
    (hm : 0 < p.mass) (hL : 0 < p.wheelbase)
    (hd1 : -90 < d) (hd2 : d < 0)
    (hr : calculate_turn_radius p d = some r) :
    (check_slip_condition p v d).1 = true ∧ (check_slip_condition p v d).2 ≤ 0 := by
  have hpi := Real.pi_pos
  have hrad_neg : radians d < 0 := by
    unfold radians
    have : d * π < 0 := mul_neg_of_neg_of_pos hd2 hpi
    linarith
  have hrad_gt : -(π / 2) < radians d := by
    unfold radians
    have h1 : (-90) * π < d * π := mul_lt_mul_of_pos_right hd1 hpi
    linarith
  have htan_neg : Real.tan (radians d) < 0 :=
    Real.tan_neg_of_neg_of_pi_div_two_lt hrad_neg hrad_gt
  have hrval : r = p.wheelbase / Real.tan (radians d) := by
    unfold calculate_turn_radius at hr
    split_ifs at hr
    exact (Option.some_inj.mp hr).symm
  have hrneg : r < 0 := hrval ▸ div_neg_of_pos_of_neg hL htan_neg
  have hreq : calculate_centripetal_force p v (calculate_turn_radius p d) ≤ 0 := by
    rw [hr]
    simp only [calculate_centripetal_force]
    split_ifs
    · exact le_rfl
    · exact div_nonpos_iff.mpr (Or.inl ⟨by positivity, hrneg.le⟩)
  have heps := eps_pos
  simp only [check_slip_condition]
  split_ifs with h1 h2 h3
  · exact ⟨rfl, le_rfl⟩
  · exact absurd (lt_of_le_of_lt hreq heps) h2
  · refine ⟨rfl, le_trans (min_le_left _ _) ?_⟩
    have hmf : 0 < p.max_friction_force := lt_of_lt_of_le heps (not_lt.mp h1)
    have hdiv : calculate_centripetal_force p v (calculate_turn_radius p d) /
        p.max_friction_force ≤ 0 :=
      div_nonpos_iff.mpr (Or.inr ⟨hreq, hmf.le⟩)
    nlinarith
  · exact absurd (le_trans hreq (le_of_lt (lt_of_lt_of_le heps (not_lt.mp h1)))) h3

/-- Witness for amended C2 at steering `-45°` (turn radius `-2.5 m`),
`v = 10`, Moon parameters. -/
theorem claim_C2_witness :
    calculate_turn_radius ⟨500, 1.62, 0.7, 2.5, 45⟩ (-45) = some (-2.5 : ℝ) ∧
    (check_slip_condition ⟨500, 1.62, 0.7, 2.5, 45⟩ 10 (-45)).1 = true ∧
    (check_slip_condition ⟨500, 1.62, 0.7, 2.5, 45⟩ 10 (-45)).2 ≤ 0 := by
  have hr : calculate_turn_radius ⟨500, 1.62, 0.7, 2.5, 45⟩ (-45) = some (-2.5 : ℝ) :=
    turn_radius_at_neg_45 _
  have h := claim_C2_amended ⟨500, 1.62, 0.7, 2.5, 45⟩ 10 (-45) (-2.5)
    (by norm_num : (0:ℝ) < 500) (by norm_num : (0:ℝ) < 2.5)
    (by norm_num) (by norm_num) hr
  exact ⟨hr, h.1, h.2⟩

/-! ## C6 -/

/-- `compute` leaves the anti-windup limit itself unchanged. -/
theorem compute_integral_limit (c : PIDController) (target current time : ℝ) :
    ((c.compute target current time).2).integral_limit = c.integral_limit := rfl

/-- The integral accumulator written by one `compute` call is the clipped
value. -/
theorem compute_integral (c : PIDController) (target current time : ℝ) :
    ((c.compute target current time).2).integral =
      clip (c.integral + (target - current) *
          (if c.first_call then 0.01
           else if time - c.prev_time ≤ 0 then 0.01 else time - c.prev_time))
        (-c.integral_limit) c.integral_limit := rfl

/-- Counterexample to C6 as stated.  A `PIDController` may be constructed
with a negative `integral_limit` (the constructor does not validate it); then
`np.clip(x, -limit, limit)` has its bounds crossed and returns `limit` (< 0),
so after one `compute` call `|integral| > integral_limit`. -/
theorem claim_C6_counterexample :
    |((PIDController.compute ⟨1, 1, 1, -1, 500, 0, 0, 0, true⟩ 0 0 0).2).integral| >
      (⟨1, 1, 1, -1, 500, 0, 0, 0, true⟩ : PIDController).integral_limit := by
  rw [compute_integral]
  norm_num [clip, min_def, max_def]

/-- C6 (amended): for every controller whose `integral_limit` is nonnegative
and every sequence of `compute` calls (any targets, currents and times),
after each call the integral accumulator satisfies
`|integral| ≤ integral_limit`. -/
theorem claim_C6_amended (c : PIDController) (calls : List (ℝ × ℝ × ℝ))
    (hlim : 0 ≤ c.integral_limit) :
    ∀ c' ∈ pidStates c calls, |c'.integral| ≤ c.integral_limit := by
  induction calls generalizing c with
  | nil => intro c' h; simp [pidStates] at h
  | cons a rest ih =>
      intro c' hmem
      simp only [pidStates, List.mem_cons] at hmem
      rcases hmem with h | h
      · subst h
        rw [compute_integral]
        exact abs_clip_le _ hlim
      · have := ih ((c.compute a.1 a.2.1 a.2.2).2)
          (by rw [compute_integral_limit]; exact hlim) c' h
        rwa [compute_integral_limit] at this

/-- Witness for amended C6: the default-gain controller
(`integral_limit = 100`), one `compute (1, 0, 1)` call. -/
theorem claim_C6_witness :
    |((PIDController.compute (mkPIDController 0.5 0.1 0.2 100 500) 1 0 1).2).integral| ≤
      (mkPIDController 0.5 0.1 0.2 100 500).integral_limit := by
  have h := claim_C6_amended (mkPIDController 0.5 0.1 0.2 100 500) [(1, 0, 1)]
    (by norm_num [mkPIDController])
  exact h _ (by simp [pidStates])

/-! ## C3 -/

/-- Counterexample to C3 as stated.  For a history of exactly one sample the
cut index is `max(1, int(0.9·1)) = 1`, so the tail slice is empty and
`np.mean` of it is NaN (`none`), not a well-defined number. -/
theorem claim_C3_counterexample :
    ("steady_state_error", Value.optNum none) ∈
      get_summary_statistics 5 [⟨0, (0, 0), 0, 0, 0, 0⟩] := by
  simp [get_summary_statistics, steadyStateTail, npMean]

/-- C3 (amended): for every history of at least TWO samples (not one — a
single-sample history yields an empty tail and a NaN mean),
`get_summary_statistics` computes `steady_state_error` as the mean of the
absolute tracking errors over the tail slice starting at
`max(1, int(0.9·n))`, which then contains at least one sample, and the
result is a well-defined number. -/
theorem claim_C3_amended (target : ℝ) (history : List VehicleState)
    (h2 : 2 ≤ history.length) :
    ∃ m : ℝ,
      ("steady_state_error", Value.optNum (some m)) ∈
        get_summary_statistics target history ∧
      1 ≤ (steadyStateTail target history).length ∧
      m = (steadyStateTail target history).sum /
        (steadyStateTail target history).length := by
  cases history with
  | nil => simp at h2
  | cons x xs =>
      have hn : 1 ≤ xs.length := by simpa using h2
      have hlen : (steadyStateTail target (x :: xs)).length =
          (xs.length + 1) - max 1 (9 * (xs.length + 1) / 10) := by
        simp [steadyStateTail]
      have hklt : max 1 (9 * (xs.length + 1) / 10) < xs.length + 1 := by
        apply max_lt (by omega)
        rw [Nat.div_lt_iff_lt_mul (by norm_num)]
        omega
      have h1le : 1 ≤ (steadyStateTail target (x :: xs)).length := by
        rw [hlen]; omega
      have hne : steadyStateTail target (x :: xs) ≠ [] := by
        intro hc
        rw [hc] at h1le
        simp at h1le
      have hmean : npMean (steadyStateTail target (x :: xs)) =
          some ((steadyStateTail target (x :: xs)).sum /
            (steadyStateTail target (x :: xs)).length) := by
        rw [npMean, if_neg hne]
      refine ⟨_, ?_, h1le, rfl⟩
      rw [← hmean]
      simp [get_summary_statistics]

/-- Witness for amended C3: a two-sample history. -/
theorem claim_C3_witness :
    ∃ m : ℝ,
      ("steady_state_error", Value.optNum (some m)) ∈
        get_summary_statistics 5 [⟨0, (0, 0), 0, 0, 0, 0⟩, ⟨1, (0, 0), 0, 0, 0, 0⟩] ∧
      1 ≤ (steadyStateTail 5 [⟨0, (0, 0), 0, 0, 0, 0⟩, ⟨1, (0, 0), 0, 0, 0, 0⟩]).length ∧
      m = (steadyStateTail 5 [⟨0, (0, 0), 0, 0, 0, 0⟩, ⟨1, (0, 0), 0, 0, 0, 0⟩]).sum /
        (steadyStateTail 5 [⟨0, (0, 0), 0, 0, 0, 0⟩, ⟨1, (0, 0), 0, 0, 0, 0⟩]).length :=
  claim_C3_amended 5 _ (by simp)

/-! ## C10 -/

/-- C10: `get_summary_statistics` is total (it never fails — the embedding is
a total function, matching the source, whose only anomaly is a NaN value,
not an exception), and the empty-history record omits exactly the
`path_length` and `final_steering_angle` keys that every non-empty-history
record contains. -/
theorem claim_C10_summary_keys (target : ℝ) (history : List VehicleState)
    (hne : history ≠ []) :
    (get_summary_statistics target []).map Prod.fst =
      ["total_time", "total_steps", "total_distance", "final_position",
       "final_heading_deg", "mean_steering_error", "max_steering_error",
       "rms_steering_error", "settling_time", "overshoot",
       "steady_state_error"] ∧
    (get_summary_statistics target history).map Prod.fst =
      ["total_time", "total_steps", "total_distance", "path_length",
       "final_position", "final_heading_deg", "final_steering_angle",
       "mean_steering_error", "max_steering_error", "rms_steering_error",
       "settling_time", "overshoot", "steady_state_error"] ∧
    (["total_time", "total_steps", "total_distance", "path_length",
      "final_position", "final_heading_deg", "final_steering_angle",
      "mean_steering_error", "max_steering_error", "rms_steering_error",
      "settling_time", "overshoot", "steady_state_error"].filter
        (fun k => !(["total_time", "total_steps", "total_distance",
          "final_position", "final_heading_deg", "mean_steering_error",
          "max_steering_error", "rms_steering_error", "settling_time",
          "overshoot", "steady_state_error"].contains k))) =
      ["path_length", "final_steering_angle"] := by
  refine ⟨rfl, ?_, by decide⟩
  cases history with
  | nil => exact absurd rfl hne
  | cons x xs => rfl

/-- Witness for C10 at a one-element history. -/
theorem claim_C10_witness :
    (get_summary_statistics 0 []).map Prod.fst =
      ["total_time", "total_steps", "total_distance", "final_position",
       "final_heading_deg", "mean_steering_error", "max_steering_error",
       "rms_steering_error", "settling_time", "overshoot",
       "steady_state_error"] ∧
    (get_summary_statistics 0 [⟨0, (0, 0), 0, 0, 0, 0⟩]).map Prod.fst =
      ["total_time", "total_steps", "total_distance", "path_length",
       "final_position", "final_heading_deg", "final_steering_angle",
       "mean_steering_error", "max_steering_error", "rms_steering_error",
       "settling_time", "overshoot", "steady_state_error"] ∧
    (["total_time", "total_steps", "total_distance", "path_length",
      "final_position", "final_heading_deg", "final_steering_angle",
      "mean_steering_error", "max_steering_error", "rms_steering_error",
      "settling_time", "overshoot", "steady_state_error"].filter
        (fun k => !(["total_time", "total_steps", "total_distance",
          "final_position", "final_heading_deg", "mean_steering_error",
          "max_steering_error", "rms_steering_error", "settling_time",
          "overshoot", "steady_state_error"].contains k))) =
      ["path_length", "final_steering_angle"] :=
  claim_C10_summary_keys 0 [⟨0, (0, 0), 0, 0, 0, 0⟩] (List.cons_ne_nil _ _)

/-! ## C4 -/

/-- The angular velocity selected by `advance`, spelled out. -/
theorem advance_angular_velocity (p : PhysicsParameters) (s : VehicleState)
    (dt u : ℝ) :
    (advance p s dt u).angular_velocity =
      match calculate_turn_radius p (new_steering_of p s dt u) with
      | some r =>
          if eps < |r| then
            if (check_slip_condition p s.velocity (new_steering_of p s dt u)).1 then
              s.velocity / r
            else if eps < s.velocity then
              p.friction_coefficient * p.gravity / s.velocity *
                Real.sign (new_steering_of p s dt u)
            else 0
          else 0
      | none => 0 := rfl

/-- The steering angle stored by `advance` is the clipped new steering. -/
theorem advance_steering_angle (p : PhysicsParameters) (s : VehicleState)
    (dt u : ℝ) :
    (advance p s dt u).steering_angle = new_steering_of p s dt u := rfl

/-- Counterexample to C4 as stated.  With a (validated, but tiny) wheelbase
of `1e-9 m`, steering `45°` gives the finite turn radius `1e-9 m`, whose
magnitude is below epsilon: the required centripetal force is reported as
`0`, so `can_turn = true`, yet `update_state` sets `angular_velocity = 0`,
not `velocity / turn_radius = 10/1e-9 ≠ 0`. -/
theorem claim_C4_counterexample :
    (check_slip_condition ⟨500, 1.62, 0.7, 1 / 1000000000, 45⟩ 10 45).1 = true ∧
    calculate_turn_radius ⟨500, 1.62, 0.7, 1 / 1000000000, 45⟩ 45 =
      some (1 / 1000000000 : ℝ) ∧
    update_state ⟨500, 1.62, 0.7, 1 / 1000000000, 45⟩ ⟨0, (0, 0), 10, 0, 45, 0⟩ 1 0 =
      some ⟨1, (10, 0), 10, 0, 45, 0⟩ ∧
    (10 : ℝ) / (1 / 1000000000 : ℝ) ≠ 0 := by
  have hr : calculate_turn_radius ⟨500, 1.62, 0.7, 1 / 1000000000, 45⟩ 45 =
      some (1 / 1000000000 : ℝ) := turn_radius_at_45 _
  have habs : ¬ eps < |(1 / 1000000000 : ℝ)| := by
    rw [not_lt, abs_of_pos] <;> norm_num [eps]
  have habs2 : |(1 / 1000000000 : ℝ)| < eps := by
    rw [abs_of_pos] <;> norm_num [eps]
  have hslip : check_slip_condition ⟨500, 1.62, 0.7, 1 / 1000000000, 45⟩ 10 45 =
      (true, 0) := by
    simp only [check_slip_condition, hr, calculate_centripetal_force,
      PhysicsParameters.max_friction_force, PhysicsParameters.normal_force]
    rw [if_neg (by rw [not_lt]; norm_num [eps])]
    rw [if_pos habs2]
    rw [if_pos (by norm_num)]
    norm_num [min_def]
  have hns : new_steering_of ⟨500, 1.62, 0.7, 1 / 1000000000, 45⟩
      ⟨0, (0, 0), 10, 0, 45, 0⟩ 1 0 = 45 := by
    simp only [new_steering_of, clip]
    norm_num
  refine ⟨by rw [hslip], hr, ?_, by norm_num⟩
  rw [update_state_of_pos _ _ _ one_pos]
  congr 1
  simp only [advance, hns, hr, habs, if_false]
  rw [VehicleState.mk.injEq]
  norm_num [Real.sin_zero, Real.cos_zero, atan2_zero_one]

/-- C4 (amended): whenever `check_slip_condition` reports `can_turn = true`
at the new steering angle, the `angular_velocity` of the updated state equals
`velocity / turn_radius` when the turn radius is finite with magnitude above
epsilon, and equals `0` when the turn radius is infinite — or finite with
magnitude at most epsilon (the case the original claim omits). -/
theorem claim_C4_amended (p : PhysicsParameters) (s : VehicleState) (dt u : ℝ)
    (hdt : 0 < dt)
    (hct : (check_slip_condition p s.velocity (new_steering_of p s dt u)).1 = true) :
    ∃ s', update_state p s dt u = some s' ∧
      s'.steering_angle = new_steering_of p s dt u ∧
      (calculate_turn_radius p s'.steering_angle = none → s'.angular_velocity = 0) ∧
      ∀ r, calculate_turn_radius p s'.steering_angle = some r →
        (eps < |r| → s'.angular_velocity = s.velocity / r) ∧
        (|r| ≤ eps → s'.angular_velocity = 0) := by
  refine ⟨advance p s dt u, update_state_of_pos p s u hdt,
    advance_steering_angle p s dt u, ?_, ?_⟩
  · intro hnone
    rw [advance_angular_velocity, advance_steering_angle] at *
    rw [hnone]
  · intro r hsome
    rw [advance_steering_angle] at hsome
    constructor
    · intro hgt
      rw [advance_angular_velocity, hsome]
      simp only [hgt, if_true, hct, reduceIte]
    · intro hle
      rw [advance_angular_velocity, hsome]
      simp only [not_lt.mpr hle, if_false, reduceIte]

/-- Witness for amended C4: Moon parameters, initial state with `v = 10`,
zero steering input (infinite turn radius, `can_turn = true`). -/
theorem claim_C4_witness :
    ∃ s', update_state ⟨500, 1.62, 0.7, 2.5, 45⟩ (initialVehicleState 10) 1 0 = some s' ∧
      s'.steering_angle = new_steering_of ⟨500, 1.62, 0.7, 2.5, 45⟩
        (initialVehicleState 10) 1 0 ∧
      (calculate_turn_radius ⟨500, 1.62, 0.7, 2.5, 45⟩ s'.steering_angle = none →
        s'.angular_velocity = 0) ∧
      ∀ r, calculate_turn_radius ⟨500, 1.62, 0.7, 2.5, 45⟩ s'.steering_angle = some r →
        (eps < |r| → s'.angular_velocity = (initialVehicleState 10).velocity / r) ∧
        (|r| ≤ eps → s'.angular_velocity = 0) := by
  have hns : new_steering_of ⟨500, 1.62, 0.7, 2.5, 45⟩ (initialVehicleState 10) 1 0 = 0 := by
    simp only [new_steering_of, clip, initialVehicleState]
    norm_num
  have hct : (check_slip_condition ⟨500, 1.62, 0.7, 2.5, 45⟩
      (initialVehicleState 10).velocity
      (new_steering_of ⟨500, 1.62, 0.7, 2.5, 45⟩ (initialVehicleState 10) 1 0)).1 = true := by
    rw [hns]
    simp only [check_slip_condition, turn_radius_at_0, calculate_centripetal_force,
      PhysicsParameters.max_friction_force, PhysicsParameters.normal_force]
    rw [if_neg (by rw [not_lt]; norm_num [eps]), if_pos (by norm_num)]
  exact claim_C4_amended _ _ 1 0 one_pos hct

/-! ## C7 -/

/-- With a positive time step a simulation step always succeeds, and it
preserves the (per-instance, fixed) `dt`. -/
theorem step_eq_some (sim : Simulation) (h : 0 < sim.dt) :
    ∃ r sim', sim.step = some (r, sim') ∧ sim'.dt = sim.dt := by
  simp only [Simulation.step]
  rw [update_state_of_pos _ _ _ h]
  exact ⟨_, _, rfl, rfl⟩

/-- The run loop collects at most one record per attempted step. -/
theorem runLoop_length_le (n : ℕ) (sim : Simulation) :
    (runLoop n sim).length ≤ n := by
  induction n generalizing sim with
  | zero => simp [runLoop]
  | succ n ih =>
      rw [runLoop]
      cases h : sim.step with
      | none => simp
      | some rs => simpa using Nat.succ_le_succ (ih rs.2)

/-- With a positive `dt`, every attempted step completes, so the run loop
returns exactly one record per step. -/
theorem runLoop_length_of_pos (n : ℕ) (sim : Simulation) (h : 0 < sim.dt) :
    (runLoop n sim).length = n := by
  induction n generalizing sim with
  | zero => simp [runLoop]
  | succ n ih =>
      obtain ⟨r, sim', hs, hdt⟩ := step_eq_some sim h
      rw [runLoop, hs]
      simpa using ih sim' (by rw [hdt]; exact h)

/-- C7: `run` raises `InvalidDuration` exactly when `duration ≤ 0`; for a
positive duration it never propagates an exception, returning the ordered
list of per-step records, at most one per attempted step, and — since a
constructed simulation has `dt > 0`, under which no step can fail — exactly
`ceil(duration/dt)` of them. -/
theorem claim_C7_run_spec (sim : Simulation) (duration target_angle : ℝ) :
    (duration ≤ 0 →
      sim.run duration target_angle = Except.error "Duration must be positive") ∧
    (0 < duration → ∃ l, sim.run duration target_angle = Except.ok l ∧
      l.length ≤ (Int.ceil (duration / sim.dt)).toNat ∧
      (0 < sim.dt → l.length = (Int.ceil (duration / sim.dt)).toNat)) := by
  constructor
  · intro h; simp [Simulation.run, h]
  · intro h
    refine ⟨runLoop (Int.ceil (duration / sim.dt)).toNat
      { sim with target_angle := target_angle }, ?_, runLoop_length_le _ _, ?_⟩
    · simp [Simulation.run, not_le.mpr h]
    · intro hdt
      exact runLoop_length_of_pos _ _ hdt

/-- Witness for C7: the Moon-scenario simulation, `duration = -1` (failure)
and `duration = 1` (success). -/
theorem claim_C7_witness :
    Simulation.run ⟨⟨500, 1.62, 0.7, 2.5, 45⟩, mkPIDController 0.5 0.1 0.2 100 500,
        0.01, 10, initialVehicleState 10, 0, [], 0⟩ (-1) 15 =
      Except.error "Duration must be positive" ∧
    ∃ l, Simulation.run ⟨⟨500, 1.62, 0.7, 2.5, 45⟩, mkPIDController 0.5 0.1 0.2 100 500,
        0.01, 10, initialVehicleState 10, 0, [], 0⟩ 1 15 = Except.ok l ∧
      l.length ≤ (Int.ceil ((1 : ℝ) / (0.01 : ℝ))).toNat ∧
      (0 < (0.01 : ℝ) → l.length = (Int.ceil ((1 : ℝ) / (0.01 : ℝ))).toNat) :=
  ⟨(claim_C7_run_spec _ (-1) 15).1 (by norm_num),
   (claim_C7_run_spec _ 1 15).2 one_pos⟩

/-! ## C9 -/

/-- C9: two simulations constructed from identical parameters, controller,
initial velocity and `dt` produce identical outputs of `run` for the same
duration and target angle. -/
theorem claim_C9_determinism (p₁ p₂ : PhysicsParameters) (c₁ c₂ : PIDController)
    (v₁ v₂ dt₁ dt₂ duration target_angle : ℝ)
    (hp : p₁ = p₂) (hc : c₁ = c₂) (hv : v₁ = v₂) (hdt : dt₁ = dt₂) :
    (mkSimulation p₁ c₁ v₁ dt₁).map (fun sim => sim.run duration target_angle) =
    (mkSimulation p₂ c₂ v₂ dt₂).map (fun sim => sim.run duration target_angle) := by
  subst hp; subst hc; subst hv; subst hdt; rfl

/-- Witness for C9 at the Moon-scenario construction inputs. -/
theorem claim_C9_witness :
    (mkSimulation ⟨500, 1.62, 0.7, 2.5, 45⟩ (mkPIDController 0.5 0.1 0.2 100 500)
        10 0.01).map (fun sim => sim.run 10 15) =
    (mkSimulation ⟨500, 1.62, 0.7, 2.5, 45⟩ (mkPIDController 0.5 0.1 0.2 100 500)
        10 0.01).map (fun sim => sim.run 10 15) :=
  claim_C9_determinism _ _ _ _ _ _ _ _ 10 15 rfl rfl rfl rfl

end PhyVista
